import Mathlib

/-!
Shallow embedding of the mdui widget lifecycle and animation orchestration:
the Dialog open/close protocol (src/packages/mdui/src/components/dialog/index.ts),
the Fab extended-state width animation (src/packages/components/src/fab/index.ts),
the BottomAppBar scroll-threshold behavior
(src/packages/mdui/src/components/bottom-app-bar/index.ts) and the Select
value normalization (src/packages/mdui/src/components/select/index.ts).

Asynchronous methods are embedded as lists of atomic actions split into
segments at their await points; a scheduler interleaves invocation segments,
timer callbacks and the settlement of running animations, following the
single-threaded cooperative event-loop model described by the spec
(section 5): a task runs one segment atomically and suspends at each await.
A task that awaited a Promise.all over animations may only resume once every
animation of that set has either finished or been canceled (the completion
semantics of the animateTo helper as given by the spec, section 4.2).
-/

namespace Mdui

/-- Modelled from the spec: the motion-token duration table of the missing
helper file "helpers/motion.js" (getDuration). The spec names the tokens
"short4" and "medium4" and says durations are bounded and drawn from a fixed
table; the concrete millisecond values are arbitrary positive constants. -/
def getDuration (token : String) : Nat :=
  if token = "medium4" then 400 else if token = "short4" then 200 else 0

/-- Modelled from the spec: the motion-token easing lookup of the missing
helper file "helpers/motion.js" (getEasing); an easing curve is represented
by its token name. -/
def getEasing (token : String) : String := token

/-- Easing constant fetched at the top of Dialog.onOpenChange, line 208. -/
def easingLinear : String := getEasing "linear"

/-- Easing constant fetched at the top of Dialog.onOpenChange, line 209. -/
def easingEmphasizedDecelerate : String := getEasing "emphasized-decelerate"

/-- Easing constant fetched at the top of Dialog.onOpenChange, line 210. -/
def easingEmphasizedAccelerate : String := getEasing "emphasized-accelerate"

/-- Atomic effects performed by Dialog.onOpenChange and by the deferred
callbacks it schedules. Each constructor corresponds to one statement of the
source: emitCancelable to an emit with cancelable true, emitEvent to a plain
emit, setDisplay to a this.style.display write, setScrollTarget and
setBodyMarginTop to the top-app-bar handling of lines 234 to 245,
captureTrigger to the document.activeElement capture of line 247,
modalActivate and modalDeactivate to the modalHelper calls, lockScreen and
unlockScreen to the scroll helpers, cancelAnims to the stopAnimation helper
of lines 212 to 217 (stopAnimations on overlay, panel and children, which
are exactly the animated nodes of this element), requestFocusInside to the
requestAnimationFrame focus block, startAnim to one animateTo call,
scheduleFocusRestore to the setTimeout scheduling of lines 359 to 362,
focusCall to the deferred trigger.focus() call when that timer fires, and
animsFinish marks the passage of time settling all running animations. -/
inductive Action where
  | emitCancelable (name : String)
  | emitEvent (name : String)
  | setDisplay (v : String)
  | setScrollTarget
  | setBodyMarginTop (v : String)
  | captureTrigger
  | modalActivate
  | modalDeactivate
  | lockScreen
  | unlockScreen
  | cancelAnims
  | requestFocusInside
  | startAnim (node : String) (duration : Nat) (easing : String)
  | scheduleFocusRestore
  | focusCall
  | animsFinish
  deriving Repr, DecidableEq, BEq

/-- One keyframe animation created by an animateTo call: the element and
invocation (Animation Run) it belongs to, its target node, duration and
easing, and whether it has been canceled or has finished. -/
structure Anim where
  elem : Nat
  run : Nat
  node : String
  duration : Nat
  easing : String
  canceled : Bool
  finished : Bool
  deriving Repr, DecidableEq, BEq

/-- An animation is settled once it has finished or been canceled. -/
def Anim.settled (a : Anim) : Bool := a.canceled || a.finished

/-- Per-element observable state of one dialog instance: its open property,
its display style, the top-app-bar margin adjustment, whether the modal
helper is active, the captured originalTrigger (and whether that element
exposes a focus function), where focus was restored to, and whether a
focus-restoring setTimeout is pending. -/
structure ElemState where
  openFlag : Bool
  display : String
  scrollTargetSet : Bool
  bodyMarginTop : Option String
  modalActive : Bool
  originalTrigger : Option String
  triggerFocusable : Bool
  restoredFocusTo : Option String
  focusTimerPending : Bool
  deriving Repr, DecidableEq, BEq

/-- Initial per-element state: closed, display none, nothing captured. -/
def ElemState.init : ElemState :=
  { openFlag := false
    display := "none"
    scrollTargetSet := false
    bodyMarginTop := none
    modalActive := false
    originalTrigger := none
    triggerFocusable := false
    restoredFocusTo := none
    focusTimerPending := false }

/-- Global model state: the per-element states, the shared scroll-lock
counter, every animation created so far (its index is its identity), the
events dispatched so far, the full execution log of atomic actions in the
order they ran, and a flag recording whether two distinct Animation Runs on
the same element were ever running at the same time. -/
structure MState where
  elems : List ElemState
  lockCount : Nat
  anims : List Anim
  events : List String
  log : List Action
  overlap : Bool
  deriving Repr, DecidableEq, BEq

/-- Behavior of the outside world during a scenario: which cancelable events
the registered listeners prevent, which element of the document holds focus
when a dialog opens, and whether that element exposes a focus function. -/
structure Env where
  openPrevented : Bool
  closePrevented : Bool
  activeElement : String
  activeFocusable : Bool
  deriving Repr, DecidableEq

/-- Dispatch result of a cancelable event: defaultPrevented as decided by
the listeners of the environment. -/
def Env.prevented (env : Env) (name : String) : Bool :=
  if name = "open" then env.openPrevented
  else if name = "close" then env.closePrevented
  else false

/-- Update the state of one element in place. -/
def MState.modifyElem (s : MState) (e : Nat) (f : ElemState → ElemState) : MState :=
  { s with elems := s.elems.set e (f (s.elems.getD e ElemState.init)) }

/-- Read the state of one element. -/
def MState.elemAt (s : MState) (e : Nat) : ElemState :=
  s.elems.getD e ElemState.init

/-- Append one executed action to the log. -/
def MState.pushLog (s : MState) (a : Action) : MState :=
  { s with log := s.log ++ [a] }

/-- Check whether the animation with the given index is settled. -/
def MState.settledAt (s : MState) (i : Nat) : Bool :=
  match s.anims.get? i with
  | some a => a.settled
  | none => false

/-- Advance time: every running animation reaches its final state and
settles. Logged as an animsFinish entry. -/
def MState.tick (s : MState) : MState :=
  { s with
    anims := s.anims.map fun an =>
      if !an.settled then { an with finished := true } else an
    log := s.log ++ [Action.animsFinish] }

/-- Semantics of one atomic action run by invocation r of element e; returns
the new state and true when the action was a cancelable emit whose default
was prevented (the source then returns from onOpenChange). The lockScreen
and unlockScreen cases are modelled from the spec: the missing helper file
"helpers/scroll.js" maintains a global counter incremented on lock and
decremented on unlock, scrolling being locked while the count is positive.
The cancelAnims case cancels every unsettled animation of this element
(stopAnimations on the overlay, the panel and the children). The startAnim
case records an overlap when an unsettled animation of a different Run on
the same element exists at start time. -/
def applyAction (env : Env) (e r : Nat) (a : Action) (s : MState) : MState × Bool :=
  match a with
  | .emitCancelable name =>
    ({ s with events := s.events ++ [name], log := s.log ++ [a] }, env.prevented name)
  | .emitEvent name =>
    ({ s with events := s.events ++ [name], log := s.log ++ [a] }, false)
  | .setDisplay v =>
    ((s.modifyElem e fun es => { es with display := v }).pushLog a, false)
  | .setScrollTarget =>
    ((s.modifyElem e fun es => { es with scrollTargetSet := true }).pushLog a, false)
  | .setBodyMarginTop v =>
    ((s.modifyElem e fun es => { es with bodyMarginTop := some v }).pushLog a, false)
  | .captureTrigger =>
    ((s.modifyElem e fun es =>
      { es with originalTrigger := some env.activeElement
                triggerFocusable := env.activeFocusable }).pushLog a, false)
  | .modalActivate =>
    ((s.modifyElem e fun es => { es with modalActive := true }).pushLog a, false)
  | .modalDeactivate =>
    ((s.modifyElem e fun es => { es with modalActive := false }).pushLog a, false)
  | .lockScreen =>
    ({ s with lockCount := s.lockCount + 1, log := s.log ++ [a] }, false)
  | .unlockScreen =>
    ({ s with lockCount := s.lockCount - 1, log := s.log ++ [a] }, false)
  | .cancelAnims =>
    ({ s with
        anims := s.anims.map fun an =>
          if an.elem == e && !an.settled then { an with canceled := true } else an
        log := s.log ++ [a] }, false)
  | .requestFocusInside => (s.pushLog a, false)
  | .startAnim node dur eas =>
    let ov := s.anims.any fun an => an.elem == e && an.run != r && !an.settled
    ({ s with
        anims := s.anims ++ [⟨e, r, node, dur, eas, false, false⟩]
        overlap := s.overlap || ov
        log := s.log ++ [a] }, false)
  | .scheduleFocusRestore =>
    let es := s.elemAt e
    let s1 :=
      if es.originalTrigger.isSome && es.triggerFocusable then
        s.modifyElem e fun es2 => { es2 with focusTimerPending := true }
      else s
    (s1.pushLog a, false)
  | .focusCall =>
    ((s.modifyElem e fun es =>
      { es with restoredFocusTo := es.originalTrigger
                focusTimerPending := false }).pushLog a, false)
  | .animsFinish => (s.tick, false)

/-- Run the actions of one segment in order, stopping early when a
cancelable emit was prevented (the early return of the source). -/
def runActs (env : Env) (e r : Nat) : List Action → MState → MState × Bool
  | [], s => (s, false)
  | a :: rest, s =>
    match applyAction env e r a s with
    | (s1, true) => (s1, true)
    | (s1, false) => runActs env e r rest s1

/-- One in-flight invocation of an async method: its element, its Run
identity, the animation indices its last segment awaits (the Promise.all
set), and its remaining segments. -/
structure TaskState where
  elem : Nat
  run : Nat
  pending : List Nat
  segs : List (List Action)
  deriving Repr, DecidableEq, BEq

/-- Resume a suspended invocation: only allowed when every awaited animation
has settled; it then runs its next segment atomically. An invocation whose
cancelable emit was prevented drops all its remaining segments. The
animations created during the segment become the set awaited next. -/
def stepTask (env : Env) (s : MState) (t : TaskState) : Option (MState × TaskState) :=
  match t.segs with
  | [] => none
  | seg :: rest =>
    if t.pending.all s.settledAt then
      let before := s.anims.length
      let (s1, aborted) := runActs env t.elem t.run seg s
      let started := (List.range (s1.anims.length - before)).map (· + before)
      some (s1, { t with segs := if aborted then [] else rest, pending := started })
    else none

/-- One step of the event loop: a property write setting the open flag, the
resumption of one invocation, the passage of time settling all running
animations, or the firing of a pending focus-restore timer. -/
inductive SchedStep where
  | setOpen (e : Nat) (v : Bool)
  | runTask (i : Nat)
  | tick
  | fireTimer (e : Nat)
  deriving Repr, DecidableEq, BEq

/-- Execute a schedule over a fixed collection of invocations. The result is
none when the schedule is invalid: resuming a finished or aborted
invocation, resuming one whose awaited animations are not yet settled, or
firing a timer that is not pending. -/
def exec (env : Env) : List SchedStep → MState → List TaskState → Option MState
  | [], s, _ => some s
  | SchedStep.setOpen e v :: rest, s, ts =>
    exec env rest (s.modifyElem e fun es => { es with openFlag := v }) ts
  | SchedStep.runTask i :: rest, s, ts =>
    match ts.get? i with
    | none => none
    | some t =>
      match stepTask env s t with
      | none => none
      | some (s1, t1) => exec env rest s1 (ts.set i t1)
  | SchedStep.tick :: rest, s, ts => exec env rest s.tick ts
  | SchedStep.fireTimer e :: rest, s, ts =>
    if (s.elemAt e).focusTimerPending then
      exec env rest (applyAction env e 0 Action.focusCall s).1 ts
    else none

/-- Transcription of the open branch of Dialog.onOpenChange
(src/packages/mdui/src/components/dialog/index.ts lines 221 to 314), split
into segments at its await points. Segment one covers the cancelable open
emit (only when hasUpdated, lines 222 to 229), the display write of line
231, the top-app-bar handling of lines 234 to 245, the trigger capture,
modal activation and lockScreen of lines 247 to 249, and ends at the await
of stopAnimation() on line 251 (the cancellations run synchronously, the
await then suspends). Segment two covers the requestAnimationFrame focus
request and the animateTo calls of the Promise.all on lines 267 to 310 and
ends awaiting that Promise.all. Segment three is the hasUpdated-guarded
opened emit of lines 312 to 314. Every duration is the medium4 token when
hasUpdated and 0 on first render, exactly as written in the source. -/
def openSegs (hasUpdated hasTopAppBar : Bool) (children : List String) :
    List (List Action) :=
  let duration := getDuration "medium4"
  let d := if hasUpdated then duration else 0
  [(if hasUpdated then [Action.emitCancelable "open"] else [])
    ++ [Action.setDisplay "flex"]
    ++ (if hasTopAppBar then [Action.setScrollTarget, Action.setBodyMarginTop "0"]
        else [])
    ++ [Action.captureTrigger, Action.modalActivate, Action.lockScreen,
        Action.cancelAnims],
   [Action.requestFocusInside,
    Action.startAnim "overlay" d easingLinear,
    Action.startAnim "panel" d easingEmphasizedDecelerate,
    Action.startAnim "panel" d easingLinear]
    ++ children.map (fun c => Action.startAnim c d easingLinear),
   if hasUpdated then [Action.emitEvent "opened"] else []]

/-- Transcription of the close branch of Dialog.onOpenChange
(src/packages/mdui/src/components/dialog/index.ts lines 315 to 365), split
into segments at its await points. Segment one covers the cancelable close
emit of lines 316 to 321, the modal deactivation of line 323, and ends at
the await of stopAnimation() on line 324. Segment two covers the animateTo
calls of the Promise.all on lines 328 to 353 with the short4 duration and
ends awaiting it. Segment three covers the display write of line 355, the
unlockScreen of line 356, the focus-restore setTimeout scheduling of lines
359 to 362 and the closed emit of line 364. -/
def closeSegs (children : List String) : List (List Action) :=
  let duration := getDuration "short4"
  [[Action.emitCancelable "close", Action.modalDeactivate, Action.cancelAnims],
   [Action.startAnim "overlay" duration easingLinear,
    Action.startAnim "panel" duration easingEmphasizedAccelerate,
    Action.startAnim "panel" duration easingLinear]
    ++ children.map (fun c => Action.startAnim c duration easingLinear),
   [Action.setDisplay "none", Action.unlockScreen, Action.scheduleFocusRestore,
    Action.emitEvent "closed"]]

/-- Transcription of the dispatch structure of Dialog.onOpenChange
(lines 186 to 366): the watcher invocation for element e with Run identity
r, given the new value of the open property and the hasUpdated flag
captured on entry. On first render in the closed state it returns without
doing anything (lines 190 to 193); otherwise it is the open branch when
open is true and the close branch when open is false. The result is the
list of invocation tasks this property change creates (empty or a
singleton). -/
def onOpenChange (e r : Nat) (openFlag hasUpdated hasTopAppBar : Bool)
    (children : List String) : List TaskState :=
  if !openFlag && !hasUpdated then []
  else if openFlag then [⟨e, r, [], openSegs hasUpdated hasTopAppBar children⟩]
  else [⟨e, r, [], closeSegs children⟩]

/-- Transcription of Dialog.disconnectedCallback
(src/packages/mdui/src/components/dialog/index.ts lines 368 to 371): it
calls unlockScreen(this) unconditionally. -/
def disconnectedCallback (env : Env) (e : Nat) (s : MState) : MState :=
  (applyAction env e 0 Action.unlockScreen s).1

/-- Atomic style writes of Fab.onExtendedChange: a this.style.width write
and the this.style.transitionProperty write that enables the width (and
box-shadow, bottom, transform) CSS transitions. -/
inductive FabAct where
  | setWidth (w : String)
  | enableTransitions
  deriving Repr, DecidableEq, BEq

/-- Transcription of Fab.onExtendedChange
(src/packages/components/src/fab/index.ts lines 89 to 111) as the ordered
list of its style writes: first the width write (cleared when not extended,
set to the scroll width otherwise), then after updateComplete, when
extended on first render, the width write is repeated after a delay, and
finally, on first render only, the transitionProperty write is performed
after a further delay so that the first render never animates. The scroll
width is rendered as the string "scrollWidth-px". -/
def onExtendedChange (hasUpdated extended : Bool) : List FabAct :=
  (if !extended then [FabAct.setWidth ""] else [FabAct.setWidth "scrollWidth-px"])
    ++ (if extended && !hasUpdated then [FabAct.setWidth "scrollWidth-px"] else [])
    ++ (if !hasUpdated then [FabAct.enableTransitions] else [])

/-- Transcription of BottomAppBar.runScrollThreshold
(src/packages/mdui/src/components/bottom-app-bar/index.ts lines 95 to 111),
given the current hide property and which of the emitted events the
listeners prevent; returns the new hide property and the events emitted in
order. The second branch reads the hide property again after the first
branch may have written it, exactly as the source does. The emit helper is
missing from the sources; modelled from the spec: intent notifications are
cancelable, so listeners may prevent them. -/
def runScrollThreshold (isScrollingUp hide hidePrevented showPrevented : Bool) :
    Bool × List String :=
  let step1 :=
    if !isScrollingUp && !hide then
      (if !hidePrevented then true else hide, ["hide"])
    else (hide, [])
  let step2 :=
    if isScrollingUp && step1.1 then
      (if !showPrevented then false else step1.1, ["show"])
    else (step1.1, [])
  (step2.1, step1.2 ++ step2.2)

/-- Value of the Select component: a string in single mode, an array of
strings in multiple mode (the public property type is string or string
array). -/
inductive SelectValue where
  | str (s : String)
  | arr (l : List String)
  deriving Repr, DecidableEq, BEq

/-- The isString check applied to a Select value. -/
def SelectValue.isString : SelectValue → Bool
  | .str _ => true
  | .arr _ => false

/-- Transcription of the value normalization in Select.connectedCallback
(src/packages/mdui/src/components/select/index.ts lines 292 to 297): when
multiple is set and the value is a string, the value becomes the singleton
array for a truthy (nonempty) string and the empty array for the falsy
empty string; otherwise the value is left unchanged. -/
def connectedValue (multiple : Bool) (value : SelectValue) : SelectValue :=
  match multiple, value with
  | true, .str s => if s = "" then .arr [] else .arr [s]
  | _, v => v

/-- Transcription of the defaultValue reset in Select.connectedCallback
(src/packages/mdui/src/components/select/index.ts line 298). -/
def connectedDefaultValue (multiple : Bool) : SelectValue :=
  if multiple then .arr [] else .str ""

/-- Agreement of a Select value with the multiple flag: an array exactly
when multiple is set, a string exactly when it is not. -/
def typeAgrees (multiple : Bool) (v : SelectValue) : Bool :=
  if multiple then !v.isString else v.isString

/-- Scan of an action list checking that no animation is started before the
first cancellation of in-flight animations. -/
def noStartBeforeCancel : List Action → Bool
  | [] => true
  | Action.cancelAnims :: _ => true
  | Action.startAnim _ _ _ :: _ => false
  | _ :: rest => noStartBeforeCancel rest

/-- Initial global state with n dialog elements, nothing open, the
scroll-lock counter at zero. -/
def initSt (n : Nat) : MState :=
  { elems := List.replicate n ElemState.init
    lockCount := 0
    anims := []
    events := []
    log := []
    overlap := false }

/-- The animated children of the dialog panel used in the scenarios: the
header, body and actions elements selected on lines 202 to 206. -/
def dlgChildren : List String := ["header", "body", "actions"]

/-- Environment used in the scenarios: the element focused before opening
is named trigger-button. -/
def mkEnv (op cp foc : Bool) : Env :=
  { openPrevented := op
    closePrevented := cp
    activeElement := "trigger-button"
    activeFocusable := foc }

/-- Scenario: the open property is set to true before the element has ever
rendered (hasUpdated is false on entry to the watcher), then the single
invocation runs all three segments, time settling its animations in
between. -/
def firstRenderOpen (op cp foc htab : Bool) : Option MState :=
  exec (mkEnv op cp foc)
    [SchedStep.setOpen 0 true, SchedStep.runTask 0, SchedStep.runTask 0,
     SchedStep.tick, SchedStep.runTask 0]
    (initSt 1)
    (onOpenChange 0 0 true false htab dlgChildren)

/-- Scenario: an already rendered, closed dialog has its open property set
to true while some listener prevents the default of the open event; the
invocation runs (and aborts at the prevented emit). -/
def vetoedOpen (cp foc htab : Bool) : Option MState :=
  exec (mkEnv true cp foc)
    [SchedStep.setOpen 0 true, SchedStep.runTask 0]
    (initSt 1)
    (onOpenChange 0 0 true true htab dlgChildren)

/-- The two watcher invocations created by setting open to true and later
back to false on an already rendered dialog: Run 0 is the open branch, Run
1 the close branch. -/
def openCloseTasks (htab : Bool) : List TaskState :=
  onOpenChange 0 0 true true htab dlgChildren
    ++ onOpenChange 0 1 false true htab dlgChildren

/-- Scenario: a full open-then-close cycle in which each transition settles
before the next property write; the focus-restore timer fires at the end
when the captured trigger exposes a focus function. -/
def fullCycle (foc htab : Bool) : Option MState :=
  exec (mkEnv false false foc)
    ([SchedStep.setOpen 0 true, SchedStep.runTask 0, SchedStep.runTask 0,
      SchedStep.tick, SchedStep.runTask 0,
      SchedStep.setOpen 0 false, SchedStep.runTask 1, SchedStep.runTask 1,
      SchedStep.tick, SchedStep.runTask 1]
      ++ (if foc then [SchedStep.fireTimer 0] else []))
    (initSt 1) (openCloseTasks htab)

/-- Scenario: the open property is set back to false while the open Run's
animations are still running. The open invocation (task 0) has started its
animations and is awaiting them; the close invocation (task 1) runs its
first segment, canceling them; the open invocation then resumes (its
awaited animations are all settled by cancellation); the close animations
then run to completion and the close invocation finishes. -/
def rapidToggle (htab : Bool) : Option MState :=
  exec (mkEnv false false true)
    [SchedStep.setOpen 0 true, SchedStep.runTask 0, SchedStep.runTask 0,
     SchedStep.setOpen 0 false, SchedStep.runTask 1, SchedStep.runTask 0,
     SchedStep.runTask 1, SchedStep.tick, SchedStep.runTask 1,
     SchedStep.fireTimer 0]
    (initSt 1) (openCloseTasks htab)

/-- Scenario: the open property is set back to false while the open
invocation is still suspended at its own stopAnimation await, before it has
started any animation. The close invocation runs its cancellation (nothing
is running yet) and starts its close animations; the open invocation then
resumes and starts the open animations while the close animations are still
running. -/
def tightToggle (htab : Bool) : Option MState :=
  exec (mkEnv false false true)
    [SchedStep.setOpen 0 true, SchedStep.runTask 0,
     SchedStep.setOpen 0 false, SchedStep.runTask 1, SchedStep.runTask 1,
     SchedStep.runTask 0, SchedStep.tick, SchedStep.runTask 0,
     SchedStep.runTask 1, SchedStep.fireTimer 0]
    (initSt 1) (openCloseTasks htab)

/-- The four watcher invocations of the two-dialog scenario: dialog 0
opens (Run 0), dialog 1 opens (Run 1), dialog 0 closes (Run 2), dialog 1
closes (Run 3). -/
def twoDialogTasks : List TaskState :=
  onOpenChange 0 0 true true false dlgChildren
    ++ onOpenChange 1 1 true true false dlgChildren
    ++ onOpenChange 0 2 false true false dlgChildren
    ++ onOpenChange 1 3 false true false dlgChildren

/-- Run the three segments of invocation i to completion, time settling its
animations before the last segment. -/
def runThree (i : Nat) : List SchedStep :=
  [SchedStep.runTask i, SchedStep.runTask i, SchedStep.tick, SchedStep.runTask i]

/-- Stage one of the two-dialog scenario: dialog 0 opens. -/
def stage1Steps : List SchedStep :=
  SchedStep.setOpen 0 true :: runThree 0

/-- Stage two: dialog 1 opens while dialog 0 is still open. -/
def stage2Steps : List SchedStep :=
  stage1Steps ++ SchedStep.setOpen 1 true :: runThree 1

/-- Stage three: dialog 0 closes while dialog 1 stays open. -/
def stage3Steps : List SchedStep :=
  stage2Steps ++ SchedStep.setOpen 0 false :: runThree 2

/-- Stage four: dialog 1 closes as well. -/
def stage4Steps : List SchedStep :=
  stage3Steps ++ SchedStep.setOpen 1 false :: runThree 3

/-- Execution of a prefix of the two-dialog scenario. -/
def lockScenario (steps : List SchedStep) : Option MState :=
  exec (mkEnv false false true) steps (initSt 2) twoDialogTasks

/-- Scenario: a single dialog is opened and its transition settles; used to
observe the scroll-lock counter before and after detaching it. -/
def openOnlyScenario : Option MState :=
  exec (mkEnv false false true) (SchedStep.setOpen 0 true :: runThree 0)
    (initSt 1)
    (onOpenChange 0 0 true true false dlgChildren)

/-- C1: for a widget whose visibility flag defaults to false (the Dialog
with open false), setting the flag to true before the first render
dispatches neither the open intent nor the opened completed notification,
and applies the open state (display flex, modal active, scroll lock held)
with every started animation duration forced to zero, for every listener
behavior, focusability and top-app-bar presence; likewise the Fab on first
render applies its extended width before its CSS transitions are enabled,
so the initial state is never animated. -/
theorem dialog_first_render_silent_zero_duration :
    (∀ op cp foc htab : Bool,
      (firstRenderOpen op cp foc htab).elim false (fun s =>
        s.events == ([] : List String) &&
        s.anims.all (fun a => a.duration == 0) &&
        !s.anims.isEmpty && (s.elemAt 0).display == "flex" &&
        (s.elemAt 0).modalActive && s.lockCount == 1) = true) ∧
    onExtendedChange false true =
      [FabAct.setWidth "scrollWidth-px", FabAct.setWidth "scrollWidth-px",
       FabAct.enableTransitions] := by
  exact ⟨by decide, rfl⟩

/-- C2: when a listener prevents the default of the open intent event on a
transition after first render, the rest of the protocol is aborted: the
display style, margin, scroll target, modal state and scroll lock are
unchanged and no animation is started, while the open flag itself is not
rolled back and remains true. Holds for every remaining listener behavior,
focusability and top-app-bar presence. -/
theorem dialog_vetoed_open_aborts_protocol :
    ∀ cp foc htab : Bool,
      (vetoedOpen cp foc htab).elim false (fun s =>
        s.events == ["open"] && (s.elemAt 0).display == "none" &&
        !(s.elemAt 0).modalActive && s.anims.isEmpty && s.lockCount == 0 &&
        (s.elemAt 0).bodyMarginTop == none && !(s.elemAt 0).scrollTargetSet &&
        (s.elemAt 0).openFlag) = true := by decide

/-- C3: evaluation of the rapid-toggle scenario (open, then close before
the open Animation Run settles). The open Run is canceled, the close Run
runs to completion and the final state is closed with the lock released,
but the opened notification IS dispatched: the close invocation cancels the
open animations, the open invocation's Promise.all then resolves and its
continuation emits opened unconditionally, so the event trace is open,
close, opened, closed. This refutes the part of the claim saying opened is
never fired. -/
theorem dialog_rapid_toggle_emits_opened :
    (rapidToggle false).elim false (fun s =>
      s.events == ["open", "close", "opened", "closed"] &&
      (s.elemAt 0).display == "none" && s.lockCount == 0 &&
      s.anims.all (fun a =>
        if a.run == 0 then a.canceled && !a.finished
        else a.finished && !a.canceled)) = true := by decide

/-- C4 counterexample: in the full open-then-close cycle the closed
notification is dispatched strictly before the deferred focus restore runs
(the source schedules trigger.focus() through setTimeout and emits closed
in the same segment, so the focus call fires only in a later timer task),
refuting the part of the claim that the completed notification follows all
focus-restore finalization of the transition. -/
theorem dialog_closed_emitted_before_focus_restore :
    (fullCycle true false).elim false (fun s =>
      s.log.contains Action.focusCall &&
      s.log.contains (Action.emitEvent "closed") &&
      decide (s.log.indexOf (Action.emitEvent "closed") <
        s.log.indexOf Action.focusCall)) = true := by decide

/-- C4 amended: in every non-first-render transition of the cycle the
cancelable intent notification precedes any DOM mutation and any animation
start, the opened notification follows the settlement of the open Run, and
the closed notification follows the settlement of the close Run, the
display and scroll-lock finalization and the scheduling of the focus
restore; the deferred focus call itself, however, runs after closed. -/
theorem dialog_notification_ordering_amended :
    (fullCycle true false).elim false (fun s =>
      let L := s.log
      let after1 := L.drop (L.indexOf Action.animsFinish + 1)
      decide (L.indexOf (Action.emitCancelable "open") <
        L.indexOf (Action.setDisplay "flex")) &&
      decide (L.indexOf (Action.emitCancelable "open") <
        L.indexOf (Action.startAnim "overlay" (getDuration "medium4") easingLinear)) &&
      decide (L.indexOf Action.animsFinish <
        L.indexOf (Action.emitEvent "opened")) &&
      decide (L.indexOf (Action.emitCancelable "close") <
        L.indexOf (Action.setDisplay "none")) &&
      decide (L.indexOf (Action.emitCancelable "close") <
        L.indexOf (Action.startAnim "overlay" (getDuration "short4") easingLinear)) &&
      decide (after1.indexOf Action.animsFinish <
        after1.indexOf (Action.emitEvent "closed")) &&
      decide (L.indexOf Action.unlockScreen < L.indexOf (Action.emitEvent "closed")) &&
      decide (L.indexOf Action.scheduleFocusRestore <
        L.indexOf (Action.emitEvent "closed")) &&
      decide (L.indexOf (Action.emitEvent "closed") <
        L.indexOf Action.focusCall)) = true := by decide

/-- C5: a dialog attached closed and then opened emits the cancelable open
intent followed, after the entry animation settles, by opened; setting the
flag back to false emits the cancelable close intent followed, after the
exit animation settles, by closed, the final display is none, the scroll
lock is released, and focus returns to the element that held focus
immediately before opening exactly when that element exposes a focus
function. -/
theorem dialog_full_cycle_events_and_focus :
    ∀ foc htab : Bool,
      (fullCycle foc htab).elim false (fun s =>
        s.events == ["open", "opened", "close", "closed"] &&
        (s.elemAt 0).display == "none" && s.lockCount == 0 &&
        (s.elemAt 0).restoredFocusTo ==
          (if foc then some "trigger-button" else none)) = true := by decide

/-- C6: the scroll-triggered bottom app bar, on a downward scroll signal
while shown, emits the hide intent and flips to hidden unless prevented;
the same downward signal while already hidden emits nothing and changes
nothing; an upward signal while hidden emits the show intent and flips to
shown unless prevented. -/
theorem bottom_app_bar_scroll_threshold :
    ∀ hp sp : Bool,
      runScrollThreshold false false hp sp = (!hp, ["hide"]) ∧
      runScrollThreshold false true hp sp = (true, []) ∧
      runScrollThreshold true true hp sp = (sp, ["show"]) := by decide

/-- C7: the global scroll-lock counter composes across widgets: opening two
dialogs sequentially increments it twice, closing one while the other is
open leaves it positive (scrolling stays locked), and closing both returns
it to zero. -/
theorem scroll_lock_counter_composes :
    (lockScenario stage1Steps).elim false (fun s => s.lockCount == 1) = true ∧
    (lockScenario stage2Steps).elim false (fun s => s.lockCount == 2) = true ∧
    (lockScenario stage3Steps).elim false
      (fun s => s.lockCount == 1 && decide (0 < s.lockCount)) = true ∧
    (lockScenario stage4Steps).elim false (fun s => s.lockCount == 0) = true := by
  exact ⟨by decide, by decide, by decide, by decide⟩

/-- C8 counterexample: there is a valid event-loop interleaving of the
rapid re-toggle in which two Animation Runs targeting the same node set
overlap: when the close watcher runs while the open invocation is still
suspended at its own stopAnimation await, the close invocation cancels
nothing (no animation is running yet), starts its close animations, and the
open invocation then resumes and starts the open animations alongside them.
This refutes the claim that no two Animation Runs on the same node set ever
overlap. -/
theorem dialog_tight_toggle_runs_overlap :
    (tightToggle false).elim false (fun s => s.overlap) = true := by decide

/-- C8 amended: in both branches of Dialog.onOpenChange the cancellation of
all in-flight animations precedes every animation start of the new
transition (for any hasUpdated and top-app-bar configuration), and in the
canonical rapid re-toggle, in which the superseding close arrives after the
open Run has started its animations, the two Runs do not overlap; overlap
is only possible when the superseding transition begins while the
superseded one has not yet started its animations. -/
theorem dialog_cancel_before_start_amended :
    (∀ hu htab : Bool,
      noStartBeforeCancel (openSegs hu htab dlgChildren).flatten = true ∧
      noStartBeforeCancel (closeSegs dlgChildren).flatten = true) ∧
    (rapidToggle false).elim false (fun s => !s.overlap) = true := by
  exact ⟨by decide, by decide⟩

/-- C9: detaching a dialog from the document runs disconnectedCallback,
which releases its scroll lock: a dialog detached while open leaves the
global scroll-lock counter back at zero rather than permanently
incremented. -/
theorem dialog_disconnect_releases_lock :
    openOnlyScenario.elim false (fun s => s.lockCount == 1) = true ∧
    (openOnlyScenario.map (disconnectedCallback (mkEnv false false true) 0)).elim
      false (fun s => s.lockCount == 0) = true := by
  exact ⟨by decide, by decide⟩

/-- C10 counterexample: a Select whose multiple flag is false but whose
value is an array keeps the array through connectedCallback, so after
connection the value type does not always agree with the multiple flag. -/
theorem select_value_type_mismatch_single :
    connectedValue false (SelectValue.arr ["a"]) = SelectValue.arr ["a"] ∧
    typeAgrees false (connectedValue false (SelectValue.arr ["a"])) = false := by
  exact ⟨rfl, rfl⟩

/-- C10 amended: on connection the Select maps a string value under the
multiple flag to the empty array for the empty string and a singleton array
otherwise, resets defaultValue to the empty array (multiple) or the empty
string (single), and after connectedCallback the value is always an array
when multiple is true; when multiple is false the value is left unchanged,
so its type agrees with the flag only if it already was a string. -/
theorem select_connected_normalization_amended :
    ∀ (s : String) (v : SelectValue),
      connectedValue true (SelectValue.str s) =
        (if s = "" then SelectValue.arr [] else SelectValue.arr [s]) ∧
      connectedDefaultValue true = SelectValue.arr [] ∧
      connectedDefaultValue false = SelectValue.str "" ∧
      typeAgrees true (connectedValue true v) = true ∧
      connectedValue false v = v := by
  intro s v
  have h4 : typeAgrees true (connectedValue true v) = true := by
    cases v with
    | str t =>
      by_cases h : t = ""
      · simp [connectedValue, typeAgrees, SelectValue.isString, h]
      · simp [connectedValue, typeAgrees, SelectValue.isString, h]
    | arr l => rfl
  have h5 : connectedValue false v = v := by
    cases v with
    | str t => rfl
    | arr l => rfl
  exact ⟨rfl, rfl, rfl, h4, h5⟩

end Mdui
